import Mathlib

/-!
Verification of the tgres receiver (src/receiver/receiver.go).

The file shallowly embeds the receiver orchestrator: the `Receiver` record,
its constructor `new` (Go `New`), the submission operations
(`QueueDataPoint`, `QueueAggregatorCommand`, `QueueSum`, `QueueGauge`), the
lifecycle operations (`stop`, `SetCluster`, `ClusterReady`) and the internal
stat-reporting hooks (`reportStatCount`, `reportStatGauge`).  Channels are
embedded as lists (a send appends to the list); a possibly-nil pointer
receiver is embedded as an `Option`; `time.Duration` and `time.Time` are
nanosecond integers; `float64` values are embedded as rationals (the only
operation the receiver performs on a value is comparison with zero).

The worker, cache and flush code of the repository is not under src/ (only
its declarations and call sites are), so the flush-threshold policy and the
cluster hop-count routing are modelled from the spec; those definitions say
so in their doc comments.
-/

namespace Tgres

/-- Embedding of Go `time.Duration`: a count of nanoseconds. -/
abbrev Duration := Int

/-- Embedding of Go `time.Time`: nanoseconds since the epoch.  The receiver
only passes timestamps through, so a linear time scale is sufficient. -/
abbrev Time := Int

/-- Go constant `time.Second` expressed in nanoseconds. -/
def second : Duration := 1000000000

/-- Embedding of `serde.Ident`, the map of string tags uniquely naming a
metric; embedded as an association list of tag pairs. -/
structure Ident where
  tags : List (String × String)
deriving DecidableEq

/-- Embedding of `incomingDP` (receiver.go lines 119-124): identity,
timestamp, value and forwarding hop count. -/
structure IncomingDP where
  Ident : Ident
  TimeStamp : Time
  Value : Rat
  Hops : Int
deriving DecidableEq

/-- Embedding of `aggregator.Command`.  The type is external to the receiver
(package aggregator) and the receiver only passes commands through, so it is
embedded as an abstract token. -/
structure AggregatorCommand where
  tag : Nat
deriving DecidableEq

/-- Embedding of `cluster.Node` as used by the receiver: the only access is
`ln.Addr.String()`, so the node is embedded as the string rendering of its
address. -/
structure Node where
  Addr : String
deriving DecidableEq

/-- Embedding of the `clusterer` interface value as used by the embedded
operations: `SetCluster` reads `LocalNode()`.  The `Ready` call of
`ClusterReady` has no effect on the receiver state and is represented by the
result of `ClusterReady` itself. -/
structure Clusterer where
  LocalNode : Option Node
deriving DecidableEq

/-- Embedding of the `dsCache` field of the receiver.  The cache type lives
outside src/; the only field the embedded operations touch is `clstr`, set
by `SetCluster`. -/
structure DsCache where
  clstr : Option Clusterer
deriving DecidableEq

/-- Embedding of the paced-metric kind constants `pacedSum` and
`pacedGauge` (declared outside src/, used by `QueueSum` and `QueueGauge`). -/
inductive PacedKind where
  | pacedSum
  | pacedGauge
deriving DecidableEq

/-- Embedding of `pacedMetric`: kind, identity and value, as built by
`QueueSum` and `QueueGauge`. -/
structure PacedMetric where
  kind : PacedKind
  ident : Ident
  value : Rat
deriving DecidableEq

/-- Embedding of the `Receiver` struct (receiver.go lines 62-111).  The
channels `dpCh`, `aggCh` and `pacedMetricCh` are embedded as lists of their
element types; a send appends on the right.  The fields `serde`, `flusher`,
the worker channels and the wait groups belong to subsystems outside src/
and are not used by any embedded operation, so they are omitted. -/
structure Receiver where
  NWorkers : Int
  MinCacheDuration : Duration
  MaxCacheDuration : Duration
  MaxCachedPoints : Int
  MaxFlushRatePerSecond : Int
  StatFlushDuration : Duration
  StatsNamePrefix : String
  ReportStats : Bool
  ReportStatsPrefix : String
  cluster : Option Clusterer
  dsc : DsCache
  dpCh : List IncomingDP
  aggCh : List AggregatorCommand
  pacedMetricCh : List PacedMetric
  stopped : Bool
deriving DecidableEq

/-- Embedding of `New` (receiver.go lines 130-153).  The function can not
fail: its Go type returns a `*Receiver` and nothing else, and the body sets
every configuration field to its literal default.  The `serde` and `finder`
arguments only seed the omitted `serde`, `flusher` and `dsc` subsystems and
carry no information used by the embedded operations; `NWorkers` is an
exported field (receiver.go line 63) that configuration code assigns after
`New` returns, with no validation anywhere in `New`.  Go zero values give
`stopped = false` and a nil `cluster`; the fresh channels are empty. -/
def new : Receiver :=
  { NWorkers := 4
    MaxCacheDuration := 5 * second
    MinCacheDuration := 1 * second
    MaxCachedPoints := 256
    MaxFlushRatePerSecond := 100
    StatFlushDuration := 10 * second
    StatsNamePrefix := "stats"
    dpCh := []
    aggCh := []
    pacedMetricCh := []
    ReportStats := false
    ReportStatsPrefix := "tgres"
    cluster := none
    dsc := { clstr := none }
    stopped := false }

/-- Embedding of `Receiver.Stop` (receiver.go lines 163-166): sets the
stopped flag.  The subsequent `doStop` drain involves the goroutine
machinery outside src/ and does not change any embedded field. -/
def stop (r : Receiver) : Receiver :=
  { r with stopped := true }

/-- Embedding of `Receiver.QueueDataPoint` (receiver.go lines 196-200): when
not stopped, sends `&incomingDP{Ident: ident, TimeStamp: ts, Value: v}` on
`dpCh`; the `Hops` field is omitted from the Go literal and therefore takes
the `int` zero value 0.  When stopped, the call does nothing. -/
def QueueDataPoint (r : Receiver) (ident : Ident) (ts : Time) (v : Rat) : Receiver :=
  if !r.stopped then
    { r with dpCh := r.dpCh ++ [{ Ident := ident, TimeStamp := ts, Value := v, Hops := 0 }] }
  else r

/-- Embedding of `Receiver.QueueAggregatorCommand` (receiver.go lines
204-208): when not stopped, sends the command on `aggCh`; otherwise does
nothing. -/
def QueueAggregatorCommand (r : Receiver) (agg : AggregatorCommand) : Receiver :=
  if !r.stopped then
    { r with aggCh := r.aggCh ++ [agg] }
  else r

/-- Embedding of `Receiver.QueueSum` (receiver.go lines 213-217): when not
stopped, sends `&pacedMetric{kind: pacedSum, ident: ident, value: v}` on
`pacedMetricCh`; otherwise does nothing. -/
def QueueSum (r : Receiver) (ident : Ident) (v : Rat) : Receiver :=
  if !r.stopped then
    { r with pacedMetricCh :=
        r.pacedMetricCh ++ [{ kind := PacedKind.pacedSum, ident := ident, value := v }] }
  else r

/-- Embedding of `Receiver.QueueGauge` (receiver.go lines 220-224): when not
stopped, sends `&pacedMetric{kind: pacedGauge, ident: ident, value: v}` on
`pacedMetricCh`; otherwise does nothing. -/
def QueueGauge (r : Receiver) (ident : Ident) (v : Rat) : Receiver :=
  if !r.stopped then
    { r with pacedMetricCh :=
        r.pacedMetricCh ++ [{ kind := PacedKind.pacedGauge, ident := ident, value := v }] }
  else r

/-- Embedding of `Receiver.reportStatCount` (receiver.go lines 227-231).
The Go method has a pointer receiver that may be nil, embedded as an
`Option Receiver`; the guard is `r != nil && r.ReportStats && f != 0`, and
on success the call is `r.QueueSum` with the name prefixed by
`ReportStatsPrefix` and a dot. -/
def reportStatCount (r : Option Receiver) (name : String) (f : Rat) : Option Receiver :=
  match r with
  | none => none
  | some r =>
    if r.ReportStats = true ∧ f ≠ 0 then
      some (QueueSum r { tags := [("name", r.ReportStatsPrefix ++ "." ++ name)] } f)
    else
      some r

/-- Embedding of `Receiver.reportStatGauge` (receiver.go lines 234-238).
The guard is `r != nil && r.ReportStats` (no comparison of `f` with zero),
and on success the call is `r.QueueGauge` with the prefixed name. -/
def reportStatGauge (r : Option Receiver) (name : String) (f : Rat) : Option Receiver :=
  match r with
  | none => none
  | some r =>
    if r.ReportStats = true then
      some (QueueGauge r { tags := [("name", r.ReportStatsPrefix ++ "." ++ name)] } f)
    else
      some r

/-- Embedding of the Go call `strings.Replace(s, ".", "_", -1)` used by
`SetCluster`: with a one-character pattern and a one-character replacement,
replacing every occurrence is exactly a character-wise map. -/
def replaceDots (s : String) : String :=
  String.mk (s.data.map fun ch => if ch = '.' then '_' else ch)

/-- Embedding of `Receiver.SetCluster` (receiver.go lines 176-189): stores
the cluster in the receiver and in the DS cache; then, if `LocalNode()` is
not nil, appends the node address (dots replaced by underscores) to
`ReportStatsPrefix` after a dot, or uses the address alone when the current
prefix is empty. -/
def SetCluster (r : Receiver) (c : Clusterer) : Receiver :=
  let r1 := { r with cluster := some c, dsc := { r.dsc with clstr := some c } }
  match c.LocalNode with
  | none => r1
  | some ln =>
    let addr := replaceDots ln.Addr
    if r1.ReportStatsPrefix ≠ "" then
      { r1 with ReportStatsPrefix := r1.ReportStatsPrefix ++ "." ++ addr }
    else
      { r1 with ReportStatsPrefix := addr }

/-- Embedding of `Receiver.ClusterReady` (receiver.go lines 170-172): the
body is `r.cluster.Ready(ready)` with no nil check, so with a nil cluster
interface the call panics.  The embedding returns `none` for the panic and
`some ready` for the argument delivered to `Ready` on the installed
cluster. -/
def ClusterReady (r : Receiver) (ready : Bool) : Option Bool :=
  match r.cluster with
  | none => none
  | some _ => some ready

/-- Modelled from the spec: the per-metric cache parameters of the
flush-threshold policy (spec section 4.3).  The worker and cache code that
implements the policy is not under src/; only the parameter declarations
and their doc comments (receiver.go lines 65-80) are. -/
structure CacheCfg where
  MinCacheDuration : Duration
  MaxCacheDuration : Duration
  MaxCachedPoints : Nat
deriving DecidableEq

/-- Modelled from the spec: the per-metric bookkeeping the flush policy
reads, the timestamp of the metric's previous flush and its accumulated
unflushed point count (spec section 3, Metric State). -/
structure MetricCacheState where
  lastFlush : Time
  points : Nat
deriving DecidableEq

/-- Modelled from the spec: the flush-threshold policy of spec section 4.3.
A metric is flush-flagged when staleness has reached `MaxCacheDuration` or
the unflushed point count has reached `MaxCachedPoints`, and in either case
only if time since the previous flush has reached `MinCacheDuration`
(MinCacheDuration strictly overrides all other triggers). -/
def shouldFlush (cfg : CacheCfg) (st : MetricCacheState) (now : Time) : Bool :=
  (decide (cfg.MaxCacheDuration ≤ now - st.lastFlush) ||
    decide (cfg.MaxCachedPoints ≤ st.points)) &&
  decide (cfg.MinCacheDuration ≤ now - st.lastFlush)

/-- Modelled from the spec: the sequence of flushes of one metric.  Each
list entry is a flush time paired with the unflushed point count at that
moment; a flush may occur only when `shouldFlush` holds with `lastFlush`
equal to the previous flush time (the first argument). -/
inductive FlushTrace (cfg : CacheCfg) : Time → List (Time × Nat) → Prop where
  | nil (t0 : Time) : FlushTrace cfg t0 []
  | cons (t0 t : Time) (pts : Nat) (rest : List (Time × Nat)) :
      shouldFlush cfg { lastFlush := t0, points := pts } t = true →
      FlushTrace cfg t rest →
      FlushTrace cfg t0 ((t, pts) :: rest)

/-- Modelled from the spec: the outcome of one worker routing step for an
incoming point (spec section 4.2).  `dropPoint` stands for dropping the
point and recording a dropped-point stat. -/
inductive RouteAction where
  | applyLocal (dp : IncomingDP)
  | forward (dp : IncomingDP)
  | dropPoint
deriving DecidableEq

/-- Modelled from the spec: one worker routing step (spec section 4.2).  A
locally owned point is applied unchanged; a point not locally owned is
forwarded with its hop count incremented while the hop count is below the
forwarding limit, and dropped otherwise. -/
def routeDP (isOwner : Bool) (hopLimit : Int) (dp : IncomingDP) : RouteAction :=
  if isOwner then
    RouteAction.applyLocal dp
  else if dp.Hops < hopLimit then
    RouteAction.forward { dp with Hops := dp.Hops + 1 }
  else
    RouteAction.dropPoint

/-- Modelled from the spec: `ForwardChain limit dp dp2 n` says the point
`dp` is forwarded `n` successive times across the cluster, each hop being a
`routeDP` step on a node that does not own it, ending in state `dp2`. -/
inductive ForwardChain (hopLimit : Int) : IncomingDP → IncomingDP → Nat → Prop where
  | refl (dp : IncomingDP) : ForwardChain hopLimit dp dp 0
  | step (dp dp1 dp2 : IncomingDP) (n : Nat) :
      routeDP false hopLimit dp = RouteAction.forward dp1 →
      ForwardChain hopLimit dp1 dp2 n →
      ForwardChain hopLimit dp dp2 (n + 1)

/-- Concrete identity used by witnesses. -/
def ident0 : Ident := { tags := [("name", "x")] }

/-- Concrete cluster node used by witnesses. -/
def node0 : Node := { Addr := "10.0.0.1:2000" }

/-- Concrete cluster with a local node, used by witnesses. -/
def clstr0 : Clusterer := { LocalNode := some node0 }

/-- Stopped receiver with stat reporting enabled, used for C9. -/
def rStoppedStats : Receiver := stop { new with ReportStats := true }

/-- Running receiver with stat reporting enabled, used by witnesses. -/
def rStats : Receiver := { new with ReportStats := true }

/-- Concrete cache configuration used by the C1 witness. -/
def cfg0 : CacheCfg :=
  { MinCacheDuration := 2, MaxCacheDuration := 5, MaxCachedPoints := 3 }

/-- Concrete incoming point with hop count 0, used by the C5 witness. -/
def dpStart : IncomingDP := { Ident := ident0, TimeStamp := 0, Value := 1, Hops := 0 }

/-- Inversion of a forwarding step: a point is forwarded only while its hop
count is below the limit, and the forwarded copy has hop count one
greater. -/
theorem routeDP_forward_inv (hopLimit : Int) (dp dp1 : IncomingDP)
    (h : routeDP false hopLimit dp = RouteAction.forward dp1) :
    dp.Hops < hopLimit ∧ dp1.Hops = dp.Hops + 1 := by
  by_cases hlt : dp.Hops < hopLimit
  · refine ⟨hlt, ?_⟩
    simp only [routeDP, Bool.false_eq_true, if_false, if_pos hlt,
      RouteAction.forward.injEq] at h
    rw [← h]
  · simp [routeDP, hlt] at h

/-- Hop accounting along a forward chain: the final hop count is the
starting hop count plus the number of forwards, and after at least one
forward the final hop count is at most the limit. -/
theorem ForwardChain.hops_eq (hopLimit : Int) (dp dp2 : IncomingDP) (n : Nat)
    (h : ForwardChain hopLimit dp dp2 n) :
    dp2.Hops = dp.Hops + (n : Int) ∧ (n = 0 ∨ dp2.Hops ≤ hopLimit) := by
  induction h with
  | refl dp => simp
  | step dp dp1 dp2 n hroute _ ih =>
    obtain ⟨hlt, hinc⟩ := routeDP_forward_inv hopLimit dp dp1 hroute
    refine ⟨by omega, Or.inr ?_⟩
    rcases ih.2 with h0 | hle
    · subst h0
      have h1 := ih.1
      omega
    · exact hle

/-- C1: for every metric, no flush ever occurs at an interval shorter than
MinCacheDuration after that metric's previous flush: along any valid flush
trace, starting from the previous flush time, consecutive flush times are
at least MinCacheDuration apart, regardless of which other trigger
(MaxCacheDuration staleness or MaxCachedPoints count) fired. -/
theorem flush_gap_ge_minCacheDuration (cfg : CacheCfg) (t0 : Time)
    (evs : List (Time × Nat)) (h : FlushTrace cfg t0 evs) :
    List.Chain (fun a b => cfg.MinCacheDuration ≤ b - a) t0 (evs.map Prod.fst) := by
  induction h with
  | nil t => exact List.Chain.nil
  | cons t0 t pts rest hsf _ ih =>
    refine List.Chain.cons ?_ ih
    have h2 := hsf
    simp only [shouldFlush, Bool.and_eq_true, decide_eq_true_eq] at h2
    exact h2.2

/-- Witness for C1: a concrete two-flush trace (one flush fired by
staleness, one by point count) whose gaps respect MinCacheDuration. -/
theorem flush_gap_ge_minCacheDuration_witness :
    FlushTrace cfg0 0 [(5, 1), (8, 3)] ∧
    List.Chain (fun a b => cfg0.MinCacheDuration ≤ b - a) 0
      ([(5, 1), (8, 3)].map Prod.fst) := by
  have htr : FlushTrace cfg0 0 [(5, 1), (8, 3)] :=
    FlushTrace.cons 0 5 1 _ (by decide)
      (FlushTrace.cons 5 8 3 _ (by decide) (FlushTrace.nil 8))
  exact ⟨htr, flush_gap_ge_minCacheDuration cfg0 0 _ htr⟩

/-- C2 counterexample: after `Stop`, each submission operation returns with
the receiver state completely unchanged — in particular nothing is
enqueued anywhere and no internal stat is incremented (the Queue functions
contain no stat call, and all internal stat reporting lands on
`pacedMetricCh`, which remains empty) — contradicting the part of the
claim that says each such drop increments an internal stat. -/
theorem stopped_drop_no_stat_counterexample :
    QueueDataPoint (stop new) ident0 0 1 = stop new ∧
    QueueAggregatorCommand (stop new) { tag := 0 } = stop new ∧
    QueueSum (stop new) ident0 1 = stop new ∧
    QueueGauge (stop new) ident0 1 = stop new ∧
    (stop new).pacedMetricCh = [] :=
  ⟨rfl, rfl, rfl, rfl, rfl⟩

/-- C2 (amended): once `Stop` has set the stopped flag, each submission
operation returns without enqueuing anything onto any channel and without
raising an error to the caller; the drop is silent and leaves the whole
receiver state, stat reporting included, unchanged. -/
theorem stopped_queue_noop (r : Receiver) (i : Ident) (ts : Time) (v : Rat)
    (a : AggregatorCommand) (h : r.stopped = true) :
    QueueDataPoint r i ts v = r ∧ QueueAggregatorCommand r a = r ∧
    QueueSum r i v = r ∧ QueueGauge r i v = r := by
  simp [QueueDataPoint, QueueAggregatorCommand, QueueSum, QueueGauge, h]

/-- Witness for C2 (amended) on a concrete stopped receiver. -/
theorem stopped_queue_noop_witness :
    (stop new).stopped = true ∧
    (QueueDataPoint (stop new) ident0 2 3 = stop new ∧
      QueueAggregatorCommand (stop new) { tag := 1 } = stop new ∧
      QueueSum (stop new) ident0 3 = stop new ∧
      QueueGauge (stop new) ident0 3 = stop new) :=
  ⟨rfl, stopped_queue_noop (stop new) ident0 2 3 { tag := 1 } rfl⟩

/-- C3: evaluation at the failing configuration.  `New` cannot fail (its Go
type returns only a receiver pointer, no error) and contains no validation
of `NWorkers`: the constructor installs the default 4, and a worker count
assigned by configuration code after `New` returns — including the
misconfigured value 0 — is carried verbatim into a constructed, usable
(non-stopped) receiver, neither rejected nor clamped. -/
theorem new_accepts_nonpositive_nworkers :
    new.NWorkers = 4 ∧
    (∀ n : Int, ({ new with NWorkers := n } : Receiver).NWorkers = n) ∧
    ({ new with NWorkers := 0 } : Receiver).stopped = false :=
  ⟨rfl, fun _ => rfl, rfl⟩

/-- C4: a receiver constructed by `New` carries exactly the documented
defaults: worker count 4, min-cache-duration 1s, max-cache-duration 5s,
max-cached-points 256, max-flush-rate-per-second 100, stat-flush-interval
10s, stats-name-prefix "stats" and report-stats false. -/
theorem new_defaults :
    new.NWorkers = 4 ∧ new.MinCacheDuration = 1 * second ∧
    new.MaxCacheDuration = 5 * second ∧ new.MaxCachedPoints = 256 ∧
    new.MaxFlushRatePerSecond = 100 ∧ new.StatFlushDuration = 10 * second ∧
    new.StatsNamePrefix = "stats" ∧ new.ReportStats = false :=
  ⟨rfl, rfl, rfl, rfl, rfl, rfl, rfl, rfl⟩

/-- C5: a point not locally owned whose hop count has exceeded the
forwarding limit is dropped (recording a dropped-point stat, which is what
`RouteAction.dropPoint` stands for) and never forwarded further, and
consequently no point entering the pipeline at hop count 0 is ever
forwarded more times than the hop limit. -/
theorem hop_limit_terminates (hopLimit : Int) (dp : IncomingDP)
    (hlim : 0 ≤ hopLimit) :
    (hopLimit < dp.Hops → routeDP false hopLimit dp = RouteAction.dropPoint) ∧
    (∀ dp2 n, dp.Hops = 0 → ForwardChain hopLimit dp dp2 n → (n : Int) ≤ hopLimit) := by
  constructor
  · intro hgt
    have hnlt : ¬ dp.Hops < hopLimit := by omega
    simp [routeDP, hnlt]
  · intro dp2 n h0 hch
    obtain ⟨heq, hcase⟩ := ForwardChain.hops_eq hopLimit dp dp2 n hch
    rcases hcase with h | h
    · omega
    · omega

/-- Witness for C5 at hop limit 2 and a concrete hop-count-0 point. -/
theorem hop_limit_terminates_witness :
    (0 : Int) ≤ 2 ∧
    ((2 < dpStart.Hops → routeDP false 2 dpStart = RouteAction.dropPoint) ∧
      (∀ dp2 n, dpStart.Hops = 0 → ForwardChain 2 dpStart dp2 n → (n : Int) ≤ 2)) :=
  ⟨by decide, hop_limit_terminates 2 dpStart (by decide)⟩

/-- C6: every point enqueued through `QueueDataPoint` enters the pipeline
with hop count 0 (the Go struct literal omits `Hops`, which therefore takes
the `int` zero value), and a hop count changes only by the increment a
forward performs: a locally applied point is unchanged while a forwarded
point has hop count exactly one greater. -/
theorem queueDataPoint_hops_zero (r : Receiver) (i : Ident) (ts : Time) (v : Rat)
    (h : r.stopped = false) :
    QueueDataPoint r i ts v =
      { r with dpCh := r.dpCh ++
        [{ Ident := i, TimeStamp := ts, Value := v, Hops := 0 }] } ∧
    (∀ owner hopLimit dp dp1,
      routeDP owner hopLimit dp = RouteAction.applyLocal dp1 → dp1 = dp) ∧
    (∀ owner hopLimit dp dp1,
      routeDP owner hopLimit dp = RouteAction.forward dp1 → dp1.Hops = dp.Hops + 1) := by
  refine ⟨by simp [QueueDataPoint, h], ?_, ?_⟩
  · intro owner hopLimit dp dp1 hr
    cases owner
    · by_cases hlt : dp.Hops < hopLimit <;> simp [routeDP, hlt] at hr
    · simpa [routeDP] using hr.symm
  · intro owner hopLimit dp dp1 hr
    cases owner
    · exact (routeDP_forward_inv hopLimit dp dp1 hr).2
    · simp [routeDP] at hr

/-- Witness for C6 on the fresh receiver. -/
theorem queueDataPoint_hops_zero_witness :
    new.stopped = false ∧
    (QueueDataPoint new ident0 1 2 =
      { new with dpCh := new.dpCh ++
        [{ Ident := ident0, TimeStamp := 1, Value := 2, Hops := 0 }] } ∧
      (∀ owner hopLimit dp dp1,
        routeDP owner hopLimit dp = RouteAction.applyLocal dp1 → dp1 = dp) ∧
      (∀ owner hopLimit dp dp1,
        routeDP owner hopLimit dp = RouteAction.forward dp1 → dp1.Hops = dp.Hops + 1)) :=
  ⟨rfl, queueDataPoint_hops_zero new ident0 1 2 rfl⟩

/-- C7: `SetCluster` stores the given cluster in the receiver and in its
metric-state cache and, when the cluster reports a non-nil local node,
recomputes `ReportStatsPrefix` to the node address with dots replaced by
underscores, appended after the existing prefix with a dot separator, or
used alone when the prior prefix is empty. -/
theorem setCluster_stores_and_prefixes (r : Receiver) (c : Clusterer) :
    (SetCluster r c).cluster = some c ∧
    (SetCluster r c).dsc.clstr = some c ∧
    (∀ ln, c.LocalNode = some ln →
      (SetCluster r c).ReportStatsPrefix =
        (if r.ReportStatsPrefix = "" then replaceDots ln.Addr
         else r.ReportStatsPrefix ++ "." ++ replaceDots ln.Addr)) := by
  refine ⟨?_, ?_, fun ln hln => ?_⟩
  · cases hln : c.LocalNode with
    | none => simp [SetCluster, hln]
    | some ln =>
      by_cases hp : r.ReportStatsPrefix = "" <;> simp [SetCluster, hln, hp]
  · cases hln : c.LocalNode with
    | none => simp [SetCluster, hln]
    | some ln =>
      by_cases hp : r.ReportStatsPrefix = "" <;> simp [SetCluster, hln, hp]
  · by_cases hp : r.ReportStatsPrefix = "" <;> simp [SetCluster, hln, hp]

/-- Witness for C7: installing a cluster whose local node address is
`10.0.0.1:2000` on a fresh receiver stores the cluster in both places and
yields the concrete prefix `tgres.10_0_0_1:2000`. -/
theorem setCluster_stores_and_prefixes_witness :
    ((SetCluster new clstr0).cluster = some clstr0 ∧
      (SetCluster new clstr0).dsc.clstr = some clstr0 ∧
      (∀ ln, clstr0.LocalNode = some ln →
        (SetCluster new clstr0).ReportStatsPrefix =
          (if new.ReportStatsPrefix = "" then replaceDots ln.Addr
           else new.ReportStatsPrefix ++ "." ++ replaceDots ln.Addr))) ∧
    (SetCluster new clstr0).ReportStatsPrefix = "tgres.10_0_0_1:2000" :=
  ⟨setCluster_stores_and_prefixes new clstr0, by decide⟩

/-- C8: the internal stat-reporting hooks are total no-ops when the
receiver is nil or `ReportStats` is false: the call does not crash and
enqueues nothing, leaving the state unchanged. -/
theorem reportStat_noop (r : Receiver) (name : String) (f : Rat)
    (h : r.ReportStats = false) :
    reportStatCount none name f = none ∧
    reportStatGauge none name f = none ∧
    reportStatCount (some r) name f = some r ∧
    reportStatGauge (some r) name f = some r := by
  simp [reportStatCount, reportStatGauge, h]

/-- Witness for C8 on the fresh receiver, whose `ReportStats` is false. -/
theorem reportStat_noop_witness :
    new.ReportStats = false ∧
    (reportStatCount none "n" 1 = none ∧
      reportStatGauge none "n" 1 = none ∧
      reportStatCount (some new) "n" 1 = some new ∧
      reportStatGauge (some new) "n" 1 = some new) :=
  ⟨rfl, reportStat_noop new "n" 1 rfl⟩

/-- C9 counterexample: a concrete non-nil receiver with `ReportStats` true
on which `reportStatGauge` enqueues nothing: the receiver has been stopped,
so the inner `QueueGauge` drops the paced gauge and `pacedMetricCh` (empty
before the call) stays empty, refuting that a paced gauge is enqueued for
every value under those two conditions alone. -/
theorem reportStatGauge_not_always_enqueues :
    rStoppedStats.ReportStats = true ∧
    rStoppedStats.pacedMetricCh = [] ∧
    reportStatGauge (some rStoppedStats) "g" 0 = some rStoppedStats :=
  ⟨rfl, rfl, rfl⟩

/-- C9 (amended): on a non-nil receiver with `ReportStats` true that has
not been stopped, `reportStatCount` with value 0 enqueues nothing, whereas
`reportStatGauge` enqueues a paced gauge for every value including 0. -/
theorem reportStat_zero_asymmetry (r : Receiver) (name : String) (v : Rat)
    (hrs : r.ReportStats = true) (hstop : r.stopped = false) :
    reportStatCount (some r) name 0 = some r ∧
    reportStatGauge (some r) name v =
      some { r with pacedMetricCh := r.pacedMetricCh ++
        [{ kind := PacedKind.pacedGauge,
           ident := { tags := [("name", r.ReportStatsPrefix ++ "." ++ name)] },
           value := v }] } := by
  constructor
  · simp [reportStatCount]
  · simp [reportStatGauge, QueueGauge, hrs, hstop]

/-- Witness for C9 (amended) on a concrete running stat-reporting
receiver. -/
theorem reportStat_zero_asymmetry_witness :
    rStats.ReportStats = true ∧ rStats.stopped = false ∧
    (reportStatCount (some rStats) "c" 0 = some rStats ∧
      reportStatGauge (some rStats) "c" 2 =
        some { rStats with pacedMetricCh := rStats.pacedMetricCh ++
          [{ kind := PacedKind.pacedGauge,
             ident := { tags := [("name", rStats.ReportStatsPrefix ++ "." ++ "c")] },
             value := 2 }] }) :=
  ⟨rfl, rfl, reportStat_zero_asymmetry rStats "c" 2 rfl rfl⟩

/-- C10: `ClusterReady` has the precondition that a cluster was installed
via `SetCluster`: on a receiver as returned by `New` the cluster is unset
and the call dereferences the nil cluster and fails (panics, embedded as
`none`) rather than being a no-op, while after `SetCluster` the ready value
is delivered to the installed cluster. -/
theorem clusterReady_needs_setCluster :
    new.cluster = none ∧
    (∀ b, ClusterReady new b = none) ∧
    (∀ c b, (SetCluster new c).cluster = some c ∧
      ClusterReady (SetCluster new c) b = some b) := by
  refine ⟨rfl, fun b => rfl, fun c b => ?_⟩
  cases hln : c.LocalNode with
  | none => simp [SetCluster, hln, ClusterReady]
  | some ln =>
    by_cases hp : new.ReportStatsPrefix = "" <;>
      simp [SetCluster, hln, ClusterReady, hp]

end Tgres
